import Mathlib

/-! Verification development for the phone-agent repository: a telephony
voice-agent bridge relaying audio between a carrier (Twilio) media socket,
a speech recognizer, a speech synthesizer and a conversational language
model.  The source has two orchestration variants concatenated in
src/index.js: a realtime-audio variant (Express app, model audio in/out)
and a speech-channel variant (Fastify app, separate STT/TTS legs with a
text-only model channel), plus a standalone recognizer channel manager in
src/services/transcription-service.js.

The definitions below are shallow embeddings of those source functions:
stateful socket handlers become explicit state-passing functions returning
the new state together with the lists of messages emitted to each peer,
and JavaScript truthiness on optional strings is modelled explicitly.
-/

namespace PhoneAgent

/-- JavaScript truthiness of a possibly-absent string value
(`undefined`/`null` and the empty string are falsy). -/
def jsTruthy : Option String → Bool
  | none => false
  | some s => !(s = "")

/-- JavaScript string interpolation of a possibly-undefined value:
interpolating `undefined` into a template literal yields the text
"undefined" (used by the email body template in `sendScheduleEmail`). -/
def jsInterp : Option String → String
  | none => "undefined"
  | some s => s

/-- JavaScript `a || defaultValue` on a possibly-absent string:
falsy values (absent or empty) fall back to the default
(source: contactInfo OR-default Not-provided). -/
def jsOrDefault : Option String → String → String
  | none, d => d
  | some s, d => if s = "" then d else s

/-- Whether the first character list is an initial segment of the second. -/
def charsStartWith : List Char → List Char → Bool
  | [], _ => true
  | _ :: _, [] => false
  | a :: as, b :: bs => a = b && charsStartWith as bs

/-- Whether the first character list occurs contiguously inside the second. -/
def charsContain (pat : List Char) : List Char → Bool
  | [] => pat.isEmpty
  | c :: rest => charsStartWith pat (c :: rest) || charsContain pat rest

/-- JavaScript `String.prototype.includes` (substring containment),
used by the recognizer classifier (type.includes of the word partial). -/
def jsIncludes (s pat : String) : Bool :=
  charsContain pat.toList s.toList

/-- JavaScript blank-text test `!text || text.trim().length === 0`:
true exactly when every character of the string is whitespace
(the empty string included). -/
def jsBlank (s : String) : Bool :=
  s.toList.all Char.isWhitespace

/-! Section: Tool executor (src/index.js lines 51-65, src/unnamed/part_001 lines 74-88)

`sendScheduleEmail(reason, contactInfo)` builds the notification email body
by template interpolation, attempts delivery through the SMTP transporter,
and returns `{success: true, message}` on success or — because the whole
body is wrapped in try/catch — `{success: false, message}` when delivery
throws.  The delivery outcome is an environment effect; it is threaded in
as the `deliveryOk` argument.  The list of email bodies handed to the
transporter models the side effect (one attempt per invocation, regardless
of outcome). -/

/-- Structured tool result `{success, message}` returned by
`sendScheduleEmail` to its caller. -/
structure ToolResult where
  success : Bool
  message : String
deriving DecidableEq

/-- The email body template from `sendScheduleEmail`:
Reason: [reason interpolated]  / Contact Info: [contactInfo or default]. -/
def emailBody (reason contactInfo : Option String) : String :=
  "Reason: " ++ jsInterp reason ++ "\n" ++
    "Contact Info: " ++ jsOrDefault contactInfo "Not provided"

/-- Shallow embedding of `sendScheduleEmail`: returns the structured result
and the list of delivery attempts made (always exactly one: the function
performs no validation of its arguments before calling `sendMail`). -/
def sendScheduleEmail (reason contactInfo : Option String)
    (deliveryOk : Bool) : ToolResult × List String :=
  let body := emailBody reason contactInfo
  if deliveryOk then
    (⟨true, "Meeting request sent via email."⟩, [body])
  else
    (⟨false, "Failed to send email."⟩, [body])

/-- Payload of a `function_call_output` conversation item sent back to the
model: either the JSON-encoded structured result of the executed tool, or
the literal `error: Unknown tool` object used for unrecognized names. -/
inductive ToolOutput where
  | result (r : ToolResult)
  | unknownTool
deriving DecidableEq

/-! Section: Realtime-audio relay (src/index.js lines 164-344)

Per-connection mutable state of the `/media-stream` handler:
`streamSid` (assigned by the carrier `start` event), `responseActive`
(set on `response.created`, cleared on `response.done`), the OpenAI
socket open/closed status, and — as side-effect accounting — the email
bodies handed to the transporter by tool executions. -/

/-- Per-call mutable state of the realtime-audio `/media-stream`
connection handler. -/
structure SessionState where
  streamSid : Option String
  responseActive : Bool
  openAiOpen : Bool
  emails : List String
deriving DecidableEq

/-- Messages the relay sends to the carrier (Twilio) over the media
socket: `media` frames (whose `streamSid` field is whatever the variable
holds, possibly null) and `clear` playback-flush frames. -/
inductive TwilioOut where
  | media (sid : Option String) (payload : String)
  | clear (sid : String)
deriving DecidableEq

/-- Messages the relay sends to the model (OpenAI) socket. -/
inductive ModelOut where
  | audioAppend (payload : String)
  | responseCancel
  | itemCreate (callId : String) (output : ToolOutput)
  | responseCreate
deriving DecidableEq

/-- Inbound carrier (Twilio) control messages, discriminated by their
`event` field. -/
inductive TwilioIn where
  | start (sid : String)
  | media (payload : String)
  | stop
deriving DecidableEq

/-- Inbound model (OpenAI realtime) events consumed by the relay,
discriminated by their `type` field.  `functionCallArgsDone` carries the
parsed tool-call arguments together with the email-delivery outcome of
the environment; `functionCallBadArgs` models an event whose `arguments`
string fails `JSON.parse` (the throw is caught by the surrounding
try/catch). -/
inductive OAiEvent where
  | responseCreated
  | responseDone
  | outputAudioDelta (delta : Option String)
  | speechStarted
  | functionCallArgsDone (callId name : String)
      (reason contactInfo : Option String) (deliveryOk : Bool)
  | functionCallBadArgs (callId name : String)
  | errorEvent
  | otherEvent
deriving DecidableEq

/-- Result of one step of the OpenAI message handler: the new session
state and the messages emitted to the carrier and to the model. -/
structure OAiStep where
  st : SessionState
  toCarrier : List TwilioOut
  toModel : List ModelOut
deriving DecidableEq

/-- Shallow embedding of the realtime-audio variant `openAiWs` message
handler (src/index.js lines 214-297), one inbound event at a time:

* `response.created` sets `responseActive`; `response.done` clears it;
* `response.output_audio.delta` forwards a `media` frame to the carrier
  only when both the delta and `streamSid` are truthy (dropped otherwise);
* `input_audio_buffer.speech_started` — guarded entirely by `streamSid`
  being truthy — sends one `clear` to the carrier and, only if
  `responseActive`, one `response.cancel` to the model;
* `response.function_call_arguments.done` executes `sendScheduleEmail`
  when the name is `schedule_meeting` (result `error: Unknown tool`
  otherwise) and always sends the function-call output item followed by
  `response.create`;
* error and unrecognized events produce nothing. -/
def handleOpenAiEvent (st : SessionState) : OAiEvent → OAiStep
  | .responseCreated =>
      ⟨{ st with responseActive := true }, [], []⟩
  | .responseDone =>
      ⟨{ st with responseActive := false }, [], []⟩
  | .outputAudioDelta delta =>
      if jsTruthy delta && jsTruthy st.streamSid then
        ⟨st, [TwilioOut.media st.streamSid (jsInterp delta)], []⟩
      else
        ⟨st, [], []⟩
  | .speechStarted =>
      if jsTruthy st.streamSid then
        ⟨st, [TwilioOut.clear (jsInterp st.streamSid)],
          if st.responseActive then [ModelOut.responseCancel] else []⟩
      else
        ⟨st, [], []⟩
  | .functionCallArgsDone callId name reason contactInfo deliveryOk =>
      if name = "schedule_meeting" then
        let r := sendScheduleEmail reason contactInfo deliveryOk
        ⟨{ st with emails := st.emails ++ r.2 },
          [],
          [ModelOut.itemCreate callId (ToolOutput.result r.1),
            ModelOut.responseCreate]⟩
      else
        ⟨st, [],
          [ModelOut.itemCreate callId ToolOutput.unknownTool,
            ModelOut.responseCreate]⟩
  | .functionCallBadArgs _ _ => ⟨st, [], []⟩
  | .errorEvent => ⟨st, [], []⟩
  | .otherEvent => ⟨st, [], []⟩

/-- Shallow embedding of the realtime-audio variant carrier message
handler (src/index.js lines 309-338): `start` records the stream
identifier, `media` forwards an `input_audio_buffer.append` to the model
when the model socket is open, `stop` closes the model socket (idempotent
guard on its readyState). -/
def handleTwilioMsg (st : SessionState) : TwilioIn → SessionState × List ModelOut
  | .start sid => ({ st with streamSid := some sid }, [])
  | .media payload =>
      if st.openAiOpen then (st, [ModelOut.audioAppend payload]) else (st, [])
  | .stop =>
      if st.openAiOpen then ({ st with openAiOpen := false }, []) else (st, [])

/-- Process a whole list of carrier messages in arrival order,
concatenating the messages forwarded to the model. -/
def processTwilio : SessionState → List TwilioIn → SessionState × List ModelOut
  | st, [] => (st, [])
  | st, m :: rest =>
      let p := handleTwilioMsg st m
      let q := processTwilio p.1 rest
      (q.1, p.2 ++ q.2)

/-- Whether a carrier message is the `start` control message. -/
def isStartMsg : TwilioIn → Bool
  | .start _ => true
  | _ => false

/-- Session state at carrier-connection setup, before any message is
processed: no stream identifier, no active response, no email sent; the
model socket open status is a parameter (its handshake is asynchronous). -/
def initSession (modelOpen : Bool) : SessionState :=
  ⟨none, false, modelOpen, []⟩

/-! Section: Speech-channel variant: synthesizer audio and the generation loop
(src/index.js lines 500-736) -/

/-- Shallow embedding of the speech-channel variant `elevenLabsTtsWs`
message handler (src/index.js lines 587-603): a parsed synthesizer message
with a truthy `audio` field is forwarded to the carrier as a `media` frame
tagged with whatever `streamSid` currently holds — there is no guard on
the stream identifier being known.  (The handler in
src/unnamed/part_001 lines 340-357 is identical.) -/
def handleTtsMessage (streamSid : Option String) (audio : Option String) :
    List TwilioOut :=
  if jsTruthy audio then [TwilioOut.media streamSid (jsInterp audio)] else []

/-- State of the speech-channel variant generation loop: the
`isThinking` guard flag of `generateResponse` (src/index.js line 533)
together with a ghost count of generation cycles currently running
(started and not yet finished), used to state the single-active-turn
invariant. -/
structure GenState where
  isThinking : Bool
  active : Nat
deriving DecidableEq

/-- Events of the generation loop, as they interleave on the
single-threaded event loop:

* `committed` — a committed transcript arrives and the STT handler calls
  `generateResponse()` (src/index.js lines 557-565): the call returns at
  once when `isThinking` is set, otherwise it sets the flag and starts a
  cycle;
* `finishNoTools` — a running generation reaches its `finally` with no
  tool calls: the flag is cleared and the cycle ends;
* `finishWithTools` — a running generation ends its streaming with tool
  calls accumulated: the code clears `isThinking` and immediately
  re-enters `generateResponse()` with no intervening await point, so the
  ending cycle is atomically replaced by the chained one. -/
inductive GenEvent where
  | committed
  | finishNoTools
  | finishWithTools
deriving DecidableEq

/-- One step of the generation loop.  The two finish events are gated on
`isThinking` because they are emitted only by a generation that is
actually running (during which the flag is set). -/
def stepGen (s : GenState) : GenEvent → GenState
  | .committed =>
      if s.isThinking then s else ⟨true, s.active + 1⟩
  | .finishNoTools =>
      if s.isThinking then ⟨false, s.active - 1⟩ else s
  | .finishWithTools =>
      if s.isThinking then ⟨true, s.active - 1 + 1⟩ else s

/-- Run the generation loop over a whole interleaving of events, from the
initial per-call state (flag clear, nothing running). -/
def runGen (tr : List GenEvent) : GenState :=
  tr.foldl stepGen ⟨false, 0⟩

/-! Section: Text-only variant tool-call handler
(src/unnamed/part_001 lines 314-337) -/

/-- Shallow embedding of `handleFunctionCall(item)`: when the tool name is
`schedule_meeting` it executes `sendScheduleEmail` (appending the delivery
attempt to the session side-effect log) and sends the structured result
back as a `function_call_output` conversation item followed by
`response.create`; any other name does nothing.  No per-session record of
previously executed tools is consulted or updated. -/
def handleFunctionCall (emails : List String) (callId name : String)
    (reason contactInfo : Option String) (deliveryOk : Bool) :
    List String × List ModelOut :=
  if name = "schedule_meeting" then
    let r := sendScheduleEmail reason contactInfo deliveryOk
    (emails ++ r.2,
      [ModelOut.itemCreate callId (ToolOutput.result r.1),
        ModelOut.responseCreate])
  else
    (emails, [])

/-! Section: Recognizer channel manager
(src/services/transcription-service.js) -/

/-- The per-frame message the recognizer channel sends to the socket
(message_type input_audio_chunk with base64 payload and sample rate). -/
structure SttChunk where
  payload : String
  sampleRate : Nat
deriving DecidableEq

/-- Send-queue state of `TranscriptionService`: the `isOpen` flag, the
`pendingMessages` buffer, and — as the observable effect — the sequence of
messages actually passed to `ws.send` in order. -/
structure SttSendState where
  isOpen : Bool
  pending : List SttChunk
  wsSent : List SttChunk
deriving DecidableEq

/-- State of the service at construction: socket not yet open, empty
buffer, nothing sent. -/
def initSttSend : SttSendState :=
  ⟨false, [], []⟩

/-- Shallow embedding of `TranscriptionService.send(payload)`
(src/services/transcription-service.js lines 119-133): the chunk message
is sent immediately when the connection is open, and pushed onto
`pendingMessages` otherwise. -/
def sttSend (sampleRate : Nat) (st : SttSendState) (payload : String) :
    SttSendState :=
  let message : SttChunk := ⟨payload, sampleRate⟩
  if st.isOpen then
    { st with wsSent := st.wsSent ++ [message] }
  else
    { st with pending := st.pending ++ [message] }

/-- Shallow embedding of the `open` handler (lines 52-57): sets `isOpen`
and drains `pendingMessages` from the front (`shift`), sending each
buffered message once, in submission order. -/
def sttOpen (st : SttSendState) : SttSendState :=
  ⟨true, [], st.wsSent ++ st.pending⟩

/-- The secondary transcript fields of a recognizer message can hold
either a plain string or an object with a `text` property
(see `extractText`, lines 105-113). -/
inductive TField where
  | str (s : String)
  | obj (text : Option String)
deriving DecidableEq

/-- Shape of a parsed inbound recognizer message: the `message_type` and
`type` discriminators and the possible text-carrying fields.  The fields
named `interimTranscript` and `committedTranscript` model the source
JSON keys for the two transcript variants (the in-progress one and the
committed one). -/
structure SttMsg where
  messageType : Option String
  msgType : Option String
  text : Option String
  transcript : Option String
  interimTranscript : Option TField
  committedTranscript : Option TField
deriving DecidableEq

/-- Shallow embedding of `TranscriptionService.extractText(msg)`
(lines 105-113): the first of `text`, `transcript`, the two transcript
fields as plain strings, then the two transcript fields `.text`
properties, that is a string; the empty string otherwise. -/
def extractText (m : SttMsg) : String :=
  match m.text with
  | some s => s
  | none =>
    match m.transcript with
    | some s => s
    | none =>
      match m.interimTranscript with
      | some (TField.str s) => s
      | _ =>
        match m.committedTranscript with
        | some (TField.str s) => s
        | _ =>
          match m.interimTranscript with
          | some (TField.obj (some s)) => s
          | _ =>
            match m.committedTranscript with
            | some (TField.obj (some s)) => s
            | _ => ""

/-- The resolved discriminator `msg.message_type || msg.type` followed by
the `if (!type) return` truthiness check (lines 67-68): `none` means the
handler returns without classifying. -/
def effType (m : SttMsg) : Option String :=
  if jsTruthy m.messageType then m.messageType
  else if jsTruthy m.msgType then m.msgType
  else none

/-- Events emitted by the recognizer channel: informational `utterance`
for in-progress text, actionable `transcription` for committed text. -/
inductive SttEvent where
  | utterance (text : String)
  | transcription (text : String)
deriving DecidableEq

/-- Shallow embedding of the classification performed by the `message`
handler (lines 59-92) on an already-parsed message: resolve the type with
fallback, silently drop missing types, `session_started` and `error`
messages, drop blank extracted text, then emit `utterance` for types
containing "partial" and `transcription` for types containing
"committed"; anything else emits nothing. -/
def classify (m : SttMsg) : Option SttEvent :=
  match effType m with
  | none => none
  | some t =>
    if t = "session_started" then none
    else if t = "error" then none
    else
      let text := extractText m
      if jsBlank text then none
      else if jsIncludes t "partial" then some (SttEvent.utterance text)
      else if jsIncludes t "committed" then some (SttEvent.transcription text)
      else none

/-! Section: Malformed inbound messages

Every socket handler in the repository wraps its body in
`try { JSON.parse(...) ... } catch { log }` (or returns early from the
catch), so a non-JSON-parseable frame is dropped without emitting
anything, without touching the state and without closing the connection.
A raw frame is modelled as either well-formed (carrying its parse) or
malformed. -/

/-- A raw socket frame: either parseable into a structured message or
malformed (JSON.parse throws). -/
inductive RawIn (α : Type) where
  | malformed
  | ok (msg : α)
deriving DecidableEq

/-- The carrier message handler lifted to raw frames (src/index.js lines
309-338): the catch block only logs, so a malformed frame leaves the
state unchanged and sends nothing. -/
def handleTwilioRaw (st : SessionState) :
    RawIn TwilioIn → SessionState × List ModelOut
  | RawIn.malformed => (st, [])
  | RawIn.ok m => handleTwilioMsg st m

/-- Process a whole list of raw carrier frames in arrival order. -/
def processTwilioRaw : SessionState → List (RawIn TwilioIn) →
    SessionState × List ModelOut
  | st, [] => (st, [])
  | st, m :: rest =>
      let p := handleTwilioRaw st m
      let q := processTwilioRaw p.1 rest
      (q.1, p.2 ++ q.2)

/-- The model message handler lifted to raw frames (src/index.js lines
214-297, try/catch around the whole switch). -/
def handleOpenAiRaw (st : SessionState) : RawIn OAiEvent → OAiStep
  | RawIn.malformed => ⟨st, [], []⟩
  | RawIn.ok e => handleOpenAiEvent st e

/-- The recognizer message handler lifted to raw frames
(src/services/transcription-service.js lines 59-65: parse failure
returns before any classification). -/
def classifyRaw : RawIn SttMsg → Option SttEvent
  | RawIn.malformed => none
  | RawIn.ok m => classify m

/-! Section: Startup credential checks
(src/index.js lines 22-25 and 372-375, src/unnamed/part_001 lines 27-30) -/

/-- The environment variables consulted by the startup checks. -/
structure Env where
  openaiApiKey : Option String
  elevenLabsApiKey : Option String
  elevenLabsVoiceId : Option String
deriving DecidableEq

/-- Outcome of running the startup sequence: the process either exits
with the given code before serving anything, or proceeds to serve. -/
inductive StartupResult where
  | exited (code : Nat)
  | serving
deriving DecidableEq

/-- Realtime-audio variant startup (src/index.js lines 22-25):
`if (!OPENAI_API_KEY) process.exit(1)`. -/
def startupRealtime (e : Env) : StartupResult :=
  if !jsTruthy e.openaiApiKey then StartupResult.exited 1
  else StartupResult.serving

/-- Speech-channel variant startup (src/index.js lines 372-375 and
src/unnamed/part_001 lines 27-30): `if (!OPENAI_API_KEY ||
!ELEVENLABS_API_KEY || !ELEVENLABS_VOICE_ID) process.exit(1)`. -/
def startupSpeech (e : Env) : StartupResult :=
  if !jsTruthy e.openaiApiKey || !jsTruthy e.elevenLabsApiKey
      || !jsTruthy e.elevenLabsVoiceId then
    StartupResult.exited 1
  else StartupResult.serving

/-! Section: Helper lemmas -/

/-- Processing a concatenation of carrier message lists processes the
first list and continues from the resulting state. -/
theorem processTwilio_append (xs : List TwilioIn) :
    ∀ (st : SessionState) (ys : List TwilioIn),
      processTwilio st (xs ++ ys) =
        ((processTwilio (processTwilio st xs).1 ys).1,
          (processTwilio st xs).2 ++ (processTwilio (processTwilio st xs).1 ys).2) := by
  induction xs with
  | nil => intro st ys; simp [processTwilio]
  | cons x xs ih =>
      intro st ys
      simp [processTwilio, ih, List.append_assoc]

/-- While the model socket is open, a run of carrier `media` messages is
forwarded one-for-one, in order, as `input_audio_buffer.append` messages,
and the session state is unchanged. -/
theorem processTwilio_media (medias : List String) :
    ∀ (st : SessionState), st.openAiOpen = true →
      processTwilio st (medias.map TwilioIn.media) =
        (st, medias.map ModelOut.audioAppend) := by
  induction medias with
  | nil => intro st _; simp [processTwilio]
  | cons x xs ih =>
      intro st h
      simp [processTwilio, handleTwilioMsg, h, ih st h]

/-- Dropping a malformed raw carrier frame anywhere in a trace does not
change the resulting state nor the messages forwarded to the model. -/
theorem processTwilioRaw_drop_malformed (xs : List (RawIn TwilioIn)) :
    ∀ (st : SessionState) (ys : List (RawIn TwilioIn)),
      processTwilioRaw st (xs ++ RawIn.malformed :: ys) =
        processTwilioRaw st (xs ++ ys) := by
  induction xs with
  | nil => intro st ys; simp [processTwilioRaw, handleTwilioRaw]
  | cons x xs ih =>
      intro st ys
      simp [processTwilioRaw, ih]

/-- Payloads submitted while the recognizer connection is not yet open all
go to the pending buffer in submission order; nothing reaches the socket. -/
theorem foldl_sttSend_closed (sampleRate : Nat) (xs : List String) :
    ∀ (st : SttSendState), st.isOpen = false →
      xs.foldl (sttSend sampleRate) st =
        ⟨false, st.pending ++ xs.map (fun p => (⟨p, sampleRate⟩ : SttChunk)),
          st.wsSent⟩ := by
  induction xs with
  | nil => intro st h; cases st; simp_all
  | cons x xs ih =>
      intro st h
      have hstep : sttSend sampleRate st x =
          { st with pending := st.pending ++ [(⟨x, sampleRate⟩ : SttChunk)] } := by
        simp [sttSend, h]
      simp [hstep, ih { st with pending := st.pending ++ [(⟨x, sampleRate⟩ : SttChunk)] } (by simp [h])]

/-- Payloads submitted while the recognizer connection is open are sent
immediately in submission order; the pending buffer is untouched. -/
theorem foldl_sttSend_open (sampleRate : Nat) (xs : List String) :
    ∀ (st : SttSendState), st.isOpen = true →
      xs.foldl (sttSend sampleRate) st =
        ⟨true, st.pending,
          st.wsSent ++ xs.map (fun p => (⟨p, sampleRate⟩ : SttChunk))⟩ := by
  induction xs with
  | nil => intro st h; cases st; simp_all
  | cons x xs ih =>
      intro st h
      have hstep : sttSend sampleRate st x =
          { st with wsSent := st.wsSent ++ [(⟨x, sampleRate⟩ : SttChunk)] } := by
        simp [sttSend, h]
      simp [hstep, ih { st with wsSent := st.wsSent ++ [(⟨x, sampleRate⟩ : SttChunk)] } (by simp [h])]

/-- One step of the generation loop preserves the correspondence between
the ghost count of running cycles and the `isThinking` flag. -/
theorem stepGen_inv (s : GenState) (e : GenEvent)
    (h : s.active = if s.isThinking then 1 else 0) :
    (stepGen s e).active = if (stepGen s e).isThinking then 1 else 0 := by
  cases e <;> cases hs : s.isThinking <;> simp [stepGen, hs] <;>
    simp [hs] at h <;> omega

/-- The flag correspondence holds after any interleaving of generation
events, starting from the initial per-call state. -/
theorem runGen_inv (tr : List GenEvent) :
    (runGen tr).active = if (runGen tr).isThinking then 1 else 0 := by
  suffices h : ∀ (s : GenState), s.active = (if s.isThinking then 1 else 0) →
      (tr.foldl stepGen s).active =
        if (tr.foldl stepGen s).isThinking then 1 else 0 by
    exact h ⟨false, 0⟩ (by simp)
  induction tr with
  | nil => intro s hs; simpa using hs
  | cons e tr ih =>
      intro s hs
      exact ih (stepGen s e) (stepGen_inv s e hs)

/-! Section: Claim theorems -/

/-- Claim C1, counterexample: in the speech-channel variant, a synthesizer
audio fragment (base64 "QUJD") arriving while the carrier stream
identifier is still unknown (streamSid null) is NOT dropped — the
`elevenLabsTtsWs` message handler forwards it to the carrier as a `media`
frame whose streamSid field is null, contradicting the claim that no
outbound media frame is ever sent to the carrier while the stream
identifier is unknown. -/
theorem c1_counterexample :
    handleTtsMessage none (some "QUJD") = [TwilioOut.media none "QUJD"] := by
  decide

/-- Claim C1 (amended): for every carrier sequence start, media*, stop, no
media frame is forwarded to any provider before the start message is
processed (the relay forwards exactly the media payloads, in order, after
start); in the realtime-audio variant a model audio fragment arriving
while streamSid is unknown is dropped, not sent; but in the speech-channel
variant a synthesizer audio fragment arriving before the identifier is
known is not dropped: it is forwarded to the carrier tagged with a null
stream identifier. -/
theorem c1_media_gating :
    (∀ (sid : String) (body : List TwilioIn),
      (processTwilio (initSession true)
        ((TwilioIn.start sid :: body).takeWhile (fun m => !isStartMsg m))).2 = []) ∧
    (∀ (sid : String) (medias : List String),
      processTwilio (initSession true)
          (TwilioIn.start sid :: (medias.map TwilioIn.media ++ [TwilioIn.stop])) =
        (⟨some sid, false, false, []⟩, medias.map ModelOut.audioAppend)) ∧
    (∀ (st : SessionState) (delta : Option String), st.streamSid = none →
      (handleOpenAiEvent st (OAiEvent.outputAudioDelta delta)).toCarrier = []) ∧
    (∀ (audio : String), jsTruthy (some audio) = true →
      handleTtsMessage none (some audio) = [TwilioOut.media none audio]) := by
  refine ⟨?_, ?_, ?_, ?_⟩
  · intro sid body
    simp [isStartMsg, List.takeWhile, processTwilio]
  · intro sid medias
    have hopen : (SessionState.mk (some sid) false true []).openAiOpen = true := rfl
    have hmedia := processTwilio_media medias ⟨some sid, false, true, []⟩ hopen
    have happ := processTwilio_append (medias.map TwilioIn.media)
      ⟨some sid, false, true, []⟩ [TwilioIn.stop]
    simp [processTwilio, handleTwilioMsg, initSession, happ, hmedia]
  · intro st delta h
    simp [handleOpenAiEvent, jsTruthy, h]
  · intro audio h
    simp [handleTtsMessage, h, jsInterp]

/-- Claim C1, witness: concrete instances of the amended statement — the
prefix before start of the sequence start "MZ123", media "AA==", stop
forwards nothing; the full sequence forwards exactly the one media
payload; the realtime delta handler with unknown streamSid emits nothing
to the carrier; the synthesizer handler with unknown streamSid emits a
null-tagged media frame. -/
theorem c1_media_gating_witness :
    (processTwilio (initSession true)
      ((TwilioIn.start "MZ123" :: [TwilioIn.media "AA==", TwilioIn.stop]).takeWhile
        (fun m => !isStartMsg m))).2 = [] ∧
    processTwilio (initSession true)
        (TwilioIn.start "MZ123" :: ([TwilioIn.media "AA=="] ++ [TwilioIn.stop])) =
      (⟨some "MZ123", false, false, []⟩, [ModelOut.audioAppend "AA=="]) ∧
    (handleOpenAiEvent ⟨none, true, true, []⟩
      (OAiEvent.outputAudioDelta (some "AA=="))).toCarrier = [] ∧
    handleTtsMessage none (some "QUJD") = [TwilioOut.media none "QUJD"] := by
  refine ⟨c1_media_gating.1 "MZ123" [TwilioIn.media "AA==", TwilioIn.stop], ?_,
    c1_media_gating.2.2.1 ⟨none, true, true, []⟩ (some "AA==") rfl,
    c1_media_gating.2.2.2 "QUJD" (by decide)⟩
  have h := c1_media_gating.2.1 "MZ123" ["AA=="]
  simpa using h

/-- Claim C2: per call session, at most one model generation cycle is ever
active under any interleaving of committed-transcript and completion
events — the ghost count of running cycles never exceeds one and always
matches the `isThinking` flag; a committed transcript arriving while the
flag is set leaves the state unchanged (no second concurrent generation
is started), a committed transcript arriving while idle sets the flag and
starts one cycle, and completion clears the flag exactly when the cycle
ends; in the realtime-audio variant the `responseActive` flag is set by
`response.created` and cleared by `response.done`. -/
theorem c2_single_active_cycle :
    ∀ (tr : List GenEvent) (s : GenState) (st : SessionState),
      (runGen tr).active ≤ 1 ∧
      (runGen tr).active = (if (runGen tr).isThinking then 1 else 0) ∧
      stepGen s GenEvent.committed =
        (if s.isThinking then s else ⟨true, s.active + 1⟩) ∧
      stepGen s GenEvent.finishNoTools =
        (if s.isThinking then ⟨false, s.active - 1⟩ else s) ∧
      (handleOpenAiEvent st OAiEvent.responseCreated).st.responseActive = true ∧
      (handleOpenAiEvent st OAiEvent.responseDone).st.responseActive = false := by
  intro tr s st
  have hinv := runGen_inv tr
  refine ⟨?_, hinv, rfl, rfl, rfl, rfl⟩
  rw [hinv]
  cases (runGen tr).isThinking <;> simp

/-- Claim C3: on a barge-in event (`input_audio_buffer.speech_started`)
with the stream identifier known, the relay sends exactly one `clear`
message to the carrier, and exactly one `response.cancel` to the model if
and only if a response is currently active — zero cancel messages when no
response is active. -/
theorem c3_barge_in (st : SessionState) (sid : String)
    (hsid : st.streamSid = some sid) (hne : jsTruthy (some sid) = true) :
    (handleOpenAiEvent st OAiEvent.speechStarted).toCarrier =
      [TwilioOut.clear sid] ∧
    (handleOpenAiEvent st OAiEvent.speechStarted).toModel =
      (if st.responseActive then [ModelOut.responseCancel] else []) := by
  constructor <;> simp [handleOpenAiEvent, hsid, hne, jsInterp]

/-- Claim C3, witness: with streamSid "MZ123" known and a response active,
barge-in emits exactly one clear frame and exactly one cancel; with no
response active it emits the clear frame and zero cancels. -/
theorem c3_barge_in_witness :
    ((handleOpenAiEvent ⟨some "MZ123", true, true, []⟩
        OAiEvent.speechStarted).toCarrier = [TwilioOut.clear "MZ123"] ∧
      (handleOpenAiEvent ⟨some "MZ123", true, true, []⟩
        OAiEvent.speechStarted).toModel = [ModelOut.responseCancel]) ∧
    ((handleOpenAiEvent ⟨some "MZ123", false, true, []⟩
        OAiEvent.speechStarted).toCarrier = [TwilioOut.clear "MZ123"] ∧
      (handleOpenAiEvent ⟨some "MZ123", false, true, []⟩
        OAiEvent.speechStarted).toModel = []) := by
  have h1 := c3_barge_in ⟨some "MZ123", true, true, []⟩ "MZ123" rfl (by decide)
  have h2 := c3_barge_in ⟨some "MZ123", false, true, []⟩ "MZ123" rfl (by decide)
  exact ⟨⟨h1.1, by simpa using h1.2⟩, ⟨h2.1, by simpa using h2.2⟩⟩

/-- Claim C10: in the realtime-audio variant, a `speech_started` barge-in
event arriving while the carrier stream identifier is still unknown
(streamSid null) produces neither a `clear` frame to the carrier nor a
`response.cancel` to the model — the whole reaction is conditioned on the
identifier being known — and the session state is unchanged. -/
theorem c10_barge_in_unknown_sid (st : SessionState)
    (h : st.streamSid = none) :
    (handleOpenAiEvent st OAiEvent.speechStarted).toCarrier = [] ∧
    (handleOpenAiEvent st OAiEvent.speechStarted).toModel = [] ∧
    (handleOpenAiEvent st OAiEvent.speechStarted).st = st := by
  refine ⟨?_, ?_, ?_⟩ <;> simp [handleOpenAiEvent, jsTruthy, h]

/-- Claim C10, witness: with streamSid unknown and a response cycle
currently active, barge-in emits nothing at all. -/
theorem c10_barge_in_unknown_sid_witness :
    (handleOpenAiEvent ⟨none, true, true, []⟩
      OAiEvent.speechStarted).toCarrier = [] ∧
    (handleOpenAiEvent ⟨none, true, true, []⟩
      OAiEvent.speechStarted).toModel = [] ∧
    (handleOpenAiEvent ⟨none, true, true, []⟩
        OAiEvent.speechStarted).st = ⟨none, true, true, []⟩ :=
  c10_barge_in_unknown_sid ⟨none, true, true, []⟩ rfl

/-- Claim C4, counterexample: invoking the `schedule_meeting` tool twice
in the same call session executes the email side effect twice — after the
second invocation the session has two delivery attempts on record — and
the second invocation returns the ordinary structured success result, not
an already-performed rejection: `handleFunctionCall` consults no
per-session record of previously executed tools. -/
theorem c4_counterexample :
    (handleFunctionCall
        (handleFunctionCall [] "call_1" "schedule_meeting"
          (some "need help") none true).1
        "call_2" "schedule_meeting" (some "need help") none true).1.length = 2 ∧
    (handleFunctionCall
        (handleFunctionCall [] "call_1" "schedule_meeting"
          (some "need help") none true).1
        "call_2" "schedule_meeting" (some "need help") none true).2 =
      [ModelOut.itemCreate "call_2"
          (ToolOutput.result ⟨true, "Meeting request sent via email."⟩),
        ModelOut.responseCreate] := by
  constructor <;> decide

/-- Claim C4 (amended): the tool executor enforces no per-session
call-count invariant — every invocation of the `schedule_meeting` tool
executes the email side effect again (exactly one new delivery attempt is
appended, whatever the session history) and returns the ordinary
structured result of that fresh execution; no already-performed result
exists in the code, the at-most-once constraint for booking/logging tools
being expressed only in the model instructions. -/
theorem c4_tool_reexecution :
    ∀ (emails : List String) (callId : String)
      (reason contactInfo : Option String) (deliveryOk : Bool),
      (handleFunctionCall emails callId "schedule_meeting"
          reason contactInfo deliveryOk).1 =
        emails ++ [emailBody reason contactInfo] ∧
      (handleFunctionCall emails callId "schedule_meeting"
          reason contactInfo deliveryOk).2 =
        [ModelOut.itemCreate callId
            (ToolOutput.result (sendScheduleEmail reason contactInfo deliveryOk).1),
          ModelOut.responseCreate] := by
  intro emails callId reason contactInfo deliveryOk
  cases deliveryOk <;> simp [handleFunctionCall, sendScheduleEmail]

/-- Claim C5: payloads submitted to the recognizer channel before the
connection is open are buffered (nothing reaches the socket), and upon the
transition to open they are flushed to the socket in FIFO submission
order, each exactly once; payloads submitted after open are sent
immediately without entering the buffer, so the socket finally sees
exactly the submitted payloads in submission order. -/
theorem c5_send_queue_fifo :
    ∀ (sampleRate : Nat) (preOpen postOpen : List String),
      (preOpen.foldl (sttSend sampleRate) initSttSend).wsSent = [] ∧
      (preOpen.foldl (sttSend sampleRate) initSttSend).pending =
        preOpen.map (fun p => (⟨p, sampleRate⟩ : SttChunk)) ∧
      (sttOpen (preOpen.foldl (sttSend sampleRate) initSttSend)).wsSent =
        preOpen.map (fun p => (⟨p, sampleRate⟩ : SttChunk)) ∧
      (sttOpen (preOpen.foldl (sttSend sampleRate) initSttSend)).pending = [] ∧
      (postOpen.foldl (sttSend sampleRate)
          (sttOpen (preOpen.foldl (sttSend sampleRate) initSttSend))).wsSent =
        (preOpen ++ postOpen).map (fun p => (⟨p, sampleRate⟩ : SttChunk)) ∧
      (postOpen.foldl (sttSend sampleRate)
          (sttOpen (preOpen.foldl (sttSend sampleRate) initSttSend))).pending = [] := by
  intro sampleRate preOpen postOpen
  have hpre : preOpen.foldl (sttSend sampleRate) initSttSend =
      ⟨false, preOpen.map (fun p => (⟨p, sampleRate⟩ : SttChunk)), []⟩ := by
    simpa [initSttSend] using
      foldl_sttSend_closed sampleRate preOpen initSttSend rfl
  have hopen : sttOpen (preOpen.foldl (sttSend sampleRate) initSttSend) =
      ⟨true, [], preOpen.map (fun p => (⟨p, sampleRate⟩ : SttChunk))⟩ := by
    rw [hpre]; simp [sttOpen]
  have hpost : postOpen.foldl (sttSend sampleRate)
        (sttOpen (preOpen.foldl (sttSend sampleRate) initSttSend)) =
      ⟨true, [], preOpen.map (fun p => (⟨p, sampleRate⟩ : SttChunk)) ++
        postOpen.map (fun p => (⟨p, sampleRate⟩ : SttChunk))⟩ := by
    rw [hopen]
    simpa using foldl_sttSend_open sampleRate postOpen
      ⟨true, [], preOpen.map (fun p => (⟨p, sampleRate⟩ : SttChunk))⟩ rfl
  refine ⟨?_, ?_, ?_, ?_, ?_, ?_⟩
  · rw [hpre]
  · rw [hpre]
  · rw [hopen]
  · rw [hopen]
  · rw [hpost]; simp
  · rw [hpost]

/-- Claim C6: the recognizer classifier reads the type from
`message_type`, falling back to `type` when the former is absent (or
falsy); messages whose resolved type is missing, or contains neither
"partial" nor "committed" (unknown and session-bookkeeping types), emit
no event; blank extracted text emits no event; a partial-type message
with non-blank text emits exactly one `utterance` event carrying the
extracted text; a committed-type message with non-blank text emits
exactly one `transcription` event carrying the extracted text. -/
theorem c6_classifier (m : SttMsg) (t : String) :
    (effType m = none → classify m = none) ∧
    (m.messageType = some t → jsTruthy (some t) = true → effType m = some t) ∧
    (m.messageType = none → m.msgType = some t → jsTruthy (some t) = true →
      effType m = some t) ∧
    (effType m = some t → jsIncludes t "partial" = false →
      jsIncludes t "committed" = false → classify m = none) ∧
    (jsBlank (extractText m) = true → classify m = none) ∧
    (effType m = some t → jsIncludes t "partial" = true →
      jsBlank (extractText m) = false →
      classify m = some (SttEvent.utterance (extractText m))) ∧
    (effType m = some t → jsIncludes t "partial" = false →
      jsIncludes t "committed" = true → jsBlank (extractText m) = false →
      classify m = some (SttEvent.transcription (extractText m))) := by
  refine ⟨?_, ?_, ?_, ?_, ?_, ?_, ?_⟩
  · intro h; simp [classify, h]
  · intro h ht; simp [effType, h, ht]
  · intro h hm ht
    have hne : ¬ t = "" := by simpa [jsTruthy] using ht
    simp [effType, h, hm, jsTruthy, hne]
  · intro ht hp hc
    by_cases hs : t = "session_started"
    · simp [classify, ht, hs]
    · by_cases he : t = "error"
      · simp [classify, ht, hs, he]
      · simp [classify, ht, hs, he, hp, hc]
  · intro hb
    unfold classify
    cases h : effType m with
    | none => rfl
    | some u =>
        by_cases hs : u = "session_started"
        · simp [hs]
        · by_cases he : u = "error"
          · simp [hs, he]
          · simp [hs, he, hb]
  · intro ht hp hb
    have hs : ¬ t = "session_started" := by
      intro h; rw [h] at hp; exact absurd hp (by decide)
    have he : ¬ t = "error" := by
      intro h; rw [h] at hp; exact absurd hp (by decide)
    simp [classify, ht, hs, he, hp, hb]
  · intro ht hp hc hb
    have hs : ¬ t = "session_started" := by
      intro h; rw [h] at hc; exact absurd hc (by decide)
    have he : ¬ t = "error" := by
      intro h; rw [h] at hc; exact absurd hc (by decide)
    simp [classify, ht, hs, he, hp, hc, hb]

/-- Claim C6, witness: concrete classifications — a partial-type message
with text "hello" emits one utterance; a committed-type message emits one
transcription; the fallback discriminator resolves from the secondary
field; a session_started message and a whitespace-only committed message
emit nothing. -/
theorem c6_classifier_witness :
    classify ⟨some "partial_transcript", none, some "hello",
        none, none, none⟩ = some (SttEvent.utterance "hello") ∧
    classify ⟨some "committed_transcript", none, some "see you",
        none, none, none⟩ = some (SttEvent.transcription "see you") ∧
    effType ⟨none, some "committed_transcript", some "hi",
        none, none, none⟩ = some "committed_transcript" ∧
    classify ⟨some "session_started", none, some "x",
        none, none, none⟩ = none ∧
    classify ⟨some "committed_transcript", none, some "  ",
        none, none, none⟩ = none := by
  refine ⟨?_, ?_, ?_, ?_, ?_⟩
  · exact (c6_classifier ⟨some "partial_transcript", none, some "hello",
      none, none, none⟩ "partial_transcript").2.2.2.2.2.1
      (by decide) (by decide) (by decide)
  · exact (c6_classifier ⟨some "committed_transcript", none, some "see you",
      none, none, none⟩ "committed_transcript").2.2.2.2.2.2
      (by decide) (by decide) (by decide) (by decide)
  · exact (c6_classifier ⟨none, some "committed_transcript", some "hi",
      none, none, none⟩ "committed_transcript").2.2.1
      rfl rfl (by decide)
  · exact (c6_classifier ⟨some "session_started", none, some "x",
      none, none, none⟩ "session_started").2.2.2.1
      (by decide) (by decide) (by decide)
  · exact (c6_classifier ⟨some "committed_transcript", none, some "  ",
      none, none, none⟩ "committed_transcript").2.2.2.2.1 (by decide)

/-- Claim C7, counterexample: an invocation of the email-scheduling tool
with the required `reason` argument missing does NOT return a structured
failure — the executor performs no validation, interpolates the absent
value as the text "undefined" into the email body, still attempts
delivery, and (when delivery succeeds) returns the ordinary success
result. -/
theorem c7_counterexample :
    (sendScheduleEmail none none true).1 =
      ⟨true, "Meeting request sent via email."⟩ ∧
    (sendScheduleEmail none none true).2 =
      ["Reason: undefined\nContact Info: Not provided"] := by
  constructor <;> decide

/-- Claim C7 (amended): the email-scheduling tool executor performs no
validation of the `reason` argument — a missing reason is interpolated as
the text "undefined" and the notification is still attempted — and for
every invocation it returns a structured success/failure object with a
human-readable message (success exactly when delivery succeeds), never
throwing to its caller: the embedding is a total function whose every
branch yields a `ToolResult`. -/
theorem c7_no_validation_no_throw :
    ∀ (reason contactInfo : Option String) (deliveryOk : Bool),
      (sendScheduleEmail reason contactInfo deliveryOk).1.success = deliveryOk ∧
      (sendScheduleEmail reason contactInfo deliveryOk).1.message =
        (if deliveryOk then "Meeting request sent via email."
          else "Failed to send email.") ∧
      (sendScheduleEmail reason contactInfo deliveryOk).2 =
        [emailBody reason contactInfo] ∧
      emailBody none contactInfo =
        "Reason: undefined" ++ "\n" ++ "Contact Info: " ++
          jsOrDefault contactInfo "Not provided" := by
  intro reason contactInfo deliveryOk
  cases deliveryOk <;>
    simp [sendScheduleEmail, emailBody, jsInterp, String.append_assoc]

/-- Claim C8: a malformed (non-JSON-parseable) frame on the carrier
socket, the model socket or the recognizer socket is dropped as exactly
that one message: the handler leaves the session state unchanged, emits
no event and sends nothing downstream (the parse failure is caught, so no
exception escapes), and processing of the rest of the carrier trace is
exactly as if the malformed frame had never arrived — the connection
stays open for subsequent messages. -/
theorem c8_malformed_dropped :
    ∀ (st : SessionState) (xs ys : List (RawIn TwilioIn)),
      handleTwilioRaw st RawIn.malformed = (st, []) ∧
      handleOpenAiRaw st RawIn.malformed = ⟨st, [], []⟩ ∧
      classifyRaw RawIn.malformed = none ∧
      processTwilioRaw st (xs ++ RawIn.malformed :: ys) =
        processTwilioRaw st (xs ++ ys) := by
  intro st xs ys
  exact ⟨rfl, rfl, rfl, processTwilioRaw_drop_malformed xs st ys⟩

/-- Claim C9: at startup the realtime-audio variant exits with code 1
exactly when the model API key is absent (falsy), and the speech-channel
variant exits with code 1 exactly when the model API key, the synthesizer
API key or the voice identifier is absent; when all required credentials
are present, startup proceeds to serve instead of exiting; the exit code
1 is nonzero. -/
theorem c9_startup_credentials :
    ∀ (e : Env),
      (startupRealtime e = StartupResult.exited 1 ↔
        jsTruthy e.openaiApiKey = false) ∧
      (startupRealtime e = StartupResult.serving ↔
        jsTruthy e.openaiApiKey = true) ∧
      (startupSpeech e = StartupResult.exited 1 ↔
        (jsTruthy e.openaiApiKey = false ∨
          jsTruthy e.elevenLabsApiKey = false ∨
          jsTruthy e.elevenLabsVoiceId = false)) ∧
      (startupSpeech e = StartupResult.serving ↔
        (jsTruthy e.openaiApiKey = true ∧
          jsTruthy e.elevenLabsApiKey = true ∧
          jsTruthy e.elevenLabsVoiceId = true)) ∧
      0 < 1 := by
  intro e
  refine ⟨?_, ?_, ?_, ?_, Nat.zero_lt_one⟩ <;>
    cases ho : jsTruthy e.openaiApiKey <;>
    cases ha : jsTruthy e.elevenLabsApiKey <;>
    cases hv : jsTruthy e.elevenLabsVoiceId <;>
    simp [startupRealtime, startupSpeech, ho, ha, hv]

end PhoneAgent
